import Mathlib

/-!
Shallow embedding of the OAuth2 token-freshness logic of the
n8n-nodes-azure-openai-ms-oauth2 package.

The embedded code:
* `getCurrentToken` — the token-freshness manager of the chat-model node,
  newest revision (v1.5.2, `src/unnamed/part_003`, lines 48-267).  The
  asynchronous interactions (the gateway probe issued through the host's
  authenticated HTTP helper followed by a credential re-read, and the direct
  refresh-token-grant POST) are modelled as oracle outcomes passed in as
  arguments; the function returns, besides its result, the trace of refresh
  strategies it attempted and of network calls it issued.
* `bufferTimeChat` / `bufferTimeEmbed` — the effective-refresh-buffer
  computations of the chat node (`part_003` lines 143-153) and of the
  embeddings node (`part_004` lines 50-58).
* `credentialScopeField` / `directGrantScope` — the OAuth2 scope expression of
  the credential type (`AzureOpenAiMsOAuth2Api.credentials.ts` line 24) and the
  scope string of the direct refresh-token-grant POST (`part_003` line 221).
* `wrapWithAuthRetry` / `wrapInjectOnly` — the runtime method wrappers placed
  around the LangChain model's invoke/stream (with one-shot 401 retry) and
  call/generate (no retry) methods
  (`LmChatAzureOpenAiMsOAuth2.node.ts` lines 461-531).

JavaScript truthiness is modelled explicitly: an absent field is `none`, and
the numbers `0` and the empty string are falsy, exactly as in the source's
`||` chains and `if (x)` guards.  The JWT payload decoding (base64url plus
JSON parsing, `decodeJWT`) is abstracted by passing its result — the decoded
`exp` claim, `decodedToken?.exp` — as the explicit argument `tokenExp`; every
claim quantifies over that value, never over the undecoded token bytes.
-/

/-- JavaScript truthiness of an optional number: `undefined` and `0` are
falsy, every other number is truthy. -/
def jsTruthyI : Option Int → Bool
  | none => false
  | some v => v != 0

/-- JavaScript truthiness of an optional string: `undefined` and the empty
string are falsy. -/
def jsTruthyS : Option String → Bool
  | none => false
  | some s => s != ""

/-- JavaScript `a || b` on optional numbers: yields `a` when `a` is truthy,
otherwise `b`. -/
def jsOrI (a b : Option Int) : Option Int :=
  if jsTruthyI a then a else b

/-- The `oauthTokenData` object stored by the host credential store
(interface `OAuthTokenData` of the node source). -/
structure OAuthTokenData where
  access_token : Option String
  expires_in : Option Int
  expires_at : Option Int
  exp : Option Int
  refresh_token : Option String
deriving Repr, DecidableEq

/-- The credential bundle read from the host store: the token data plus the
static per-credential configuration used by the refresh strategies. -/
structure CredentialBundle where
  oauthTokenData : OAuthTokenData
  accessTokenUrl : String
  clientId : String
  clientSecret : String
  apiScope : String
  refreshBeforeExpirySeconds : Option Int
deriving Repr, DecidableEq

/-- The expiry-source priority chain of `getCurrentToken`
(`part_003` line 78): `tokenExp || oauthData.expires_at || oauthData.exp`,
with JavaScript `||` semantics (`0` falls through). -/
def expiryTimeChain (tokenExp : Option Int) (d : OAuthTokenData) : Option Int :=
  jsOrI tokenExp (jsOrI d.expires_at d.exp)

/-- The authoritative expiry actually acted upon: the chain value when it is
truthy (`if (expiryTime)`, `part_003` line 137), otherwise `none`
("cannot evaluate"). -/
def authExpiry (tokenExp : Option Int) (d : OAuthTokenData) : Option Int :=
  let e := expiryTimeChain tokenExp d
  if jsTruthyI e then e else none

/-- Effective refresh buffer of the chat node (`part_003` lines 143-153):
default 900, a configured value is used only when it lies in `[60, 3600]`,
otherwise the default is kept and a warning is logged.  Returns the pair
(effective buffer, warning logged). -/
def bufferTimeChat (rb : Option Int) : Int × Bool :=
  match rb with
  | none => (900, false)
  | some b => if 60 ≤ b ∧ b ≤ 3600 then (b, false) else (900, true)

/-- Effective refresh buffer of the embeddings node (`part_004` line 50):
`(credentials.refreshBeforeExpirySeconds as number | undefined) ?? 900` —
no range validation at all. -/
def bufferTimeEmbed (rb : Option Int) : Int :=
  rb.getD 900

/-- A refresh strategy attempt, in attempt order. -/
inductive Strategy
  | gatewayProbe
  | directGrant
deriving Repr, DecidableEq

/-- A network call issued by `getCurrentToken`: the authenticated gateway
probe request, or the form-encoded POST to the token endpoint. -/
inductive NetCall
  | probeRequest
  | tokenEndpointPost
deriving Repr, DecidableEq

/-- The one error `getCurrentToken` itself raises: the `NodeOperationError`
"OAuth2 access token not found. Please reconnect your credentials." -/
inductive TokenErr
  | missingToken
deriving Repr, DecidableEq

/-- Result value of `getCurrentToken`: a raised error or a returned token. -/
inductive TokenResult
  | err (e : TokenErr)
  | tok (s : String)
deriving Repr, DecidableEq

/-- Oracle outcome of the gateway-probe strategy: the probe request or the
credential re-read after it threw, or both succeeded and the re-read bundle
held the given `access_token` field. -/
inductive ProbeOutcome
  | threw
  | ok (reread : Option String)
deriving Repr, DecidableEq

/-- Oracle outcome of the direct refresh-token-grant POST: the request or the
JSON parse threw, or it succeeded and the parsed body held the given
`access_token` field. -/
inductive GrantOutcome
  | threw
  | ok (newToken : Option String)
deriving Repr, DecidableEq

/-- Everything observable about one `getCurrentToken` run: its result, the
refresh strategies attempted in order, and the network calls issued in
order. -/
structure TokenOutcome where
  result : TokenResult
  strategies : List Strategy
  netCalls : List NetCall
deriving Repr, DecidableEq

/-- Scope string of the direct refresh-token-grant POST (`part_003` line 221):
the template literal prefixes `offline_access ` unconditionally. -/
def directGrantScope (apiScope : String) : String :=
  "offline_access " ++ apiScope

/-- The manual refresh_token-grant section of `getCurrentToken`
(`part_003` lines 210-258): with no (truthy) refresh token it returns the
current token at once without posting; otherwise the POST outcome decides —
a truthy `access_token` in the response is returned, anything else falls back
to the current token.  Returns (returned token, whether the POST was
issued). -/
def manualRefreshGrant (tok : String) (refreshToken : Option String)
    (grant : GrantOutcome) : String × Bool :=
  if jsTruthyS refreshToken then
    match grant with
    | .ok newToken => if jsTruthyS newToken then (newToken.getD tok, true) else (tok, true)
    | .threw => (tok, true)
  else
    (tok, false)

/-- The token-freshness manager `getCurrentToken` of the chat node, newest
revision (`part_003` lines 48-267), with `FORCE_REFRESH_FOR_TESTING = false`
so the dead test block is omitted.  `tokenExp` is the decoded JWT `exp`
claim (`decodeJWT(oauthData.access_token)?.exp`); `probe` and `grant` are the
oracle outcomes of the two refresh strategies. -/
def getCurrentToken (creds : CredentialBundle) (tokenExp : Option Int)
    (now : Int) (probe : ProbeOutcome) (grant : GrantOutcome) : TokenOutcome :=
  let oauthData := creds.oauthTokenData
  if jsTruthyS oauthData.access_token then
    let tok := oauthData.access_token.getD ""
    match authExpiry tokenExp oauthData with
    | none =>
      -- no usable expiry information: warn and return the token unchanged
      ⟨.tok tok, [], []⟩
    | some expiresAt =>
      let bufferTime := (bufferTimeChat creds.refreshBeforeExpirySeconds).1
      if now ≥ expiresAt - bufferTime then
        if now ≥ expiresAt then
          -- already expired: gateway-probe strategy first
          match probe with
          | .ok reread =>
            if jsTruthyS reread ∧ reread ≠ oauthData.access_token then
              ⟨.tok (reread.getD tok), [.gatewayProbe], [.probeRequest]⟩
            else
              -- token unchanged after the probe: no-op success
              ⟨.tok tok, [.gatewayProbe], [.probeRequest]⟩
          | .threw =>
            -- probe failed: fall through to the direct-grant strategy
            let r := manualRefreshGrant tok oauthData.refresh_token grant
            ⟨.tok r.1, [.gatewayProbe, .directGrant],
              .probeRequest :: (if r.2 then [.tokenEndpointPost] else [])⟩
        else
          -- inside the buffer window but not expired: direct grant only
          let r := manualRefreshGrant tok oauthData.refresh_token grant
          ⟨.tok r.1, [.directGrant], if r.2 then [.tokenEndpointPost] else []⟩
      else
        -- still comfortably valid: return unchanged
        ⟨.tok tok, [], []⟩
  else
    ⟨.err .missingToken, [], []⟩

/-- Boolean check that a pattern is an initial segment of a character list
(the position-wise step of substring search). -/
def startsWithL : List Char → List Char → Bool
  | [], _ => true
  | _ :: _, [] => false
  | a :: as, b :: bs => a == b && startsWithL as bs

/-- Number of positions of a character list at which the (non-empty) pattern
occurs. -/
def occCount (pat : List Char) : List Char → Nat
  | [] => 0
  | c :: rest => (if startsWithL pat (c :: rest) then 1 else 0) + occCount pat rest

/-- JavaScript `s.includes(sub)` for a non-empty `sub`: some occurrence
exists. -/
def includesJS (s sub : String) : Bool :=
  occCount sub.data s.data != 0

/-- The credential type's hidden OAuth2 `scope` field
(`AzureOpenAiMsOAuth2Api.credentials.ts` line 24): the configured `apiScope`
when it already includes `offline_access`, otherwise `offline_access `
prefixed to it. -/
def credentialScopeField (apiScope : String) : String :=
  if includesJS apiScope "offline_access" then apiScope
  else "offline_access " ++ apiScope

/-- An error object thrown by the wrapped LangChain client: HTTP status may
appear top-level (`error.status`) or nested (`error.response.status`), and
either level may be absent. -/
structure ErrResponse where
  status : Option Int
deriving Repr, DecidableEq

/-- Error value observed by the method wrappers. -/
structure JsError where
  status : Option Int
  response : Option ErrResponse
deriving Repr, DecidableEq

/-- The wrappers' 401 test
(`LmChatAzureOpenAiMsOAuth2.node.ts` lines 480 and 502):
`error?.status === 401 || error?.response?.status === 401`. -/
def is401 (e : JsError) : Bool :=
  e.status == some 401 ||
    (match e.response with
     | some r => r.status == some 401
     | none => false)

/-- Outcome of one call of the wrapped inner method. -/
inductive CallResult (α : Type)
  | ok (v : α)
  | err (e : JsError)
deriving Repr, DecidableEq

/-- Observable step of a wrapper run: fetching a fresh token (and injecting
it into the model object) or calling the wrapped inner method. -/
inductive WrapEvent
  | fetchToken
  | innerCall
deriving Repr, DecidableEq

/-- The wrapped `invoke` / `stream` methods
(`LmChatAzureOpenAiMsOAuth2.node.ts` lines 467-511): fetch and inject a fresh
token, call the inner method; when that call fails the 401 test, fetch and
inject again and call the inner method a second time, returning the second
outcome whatever it is; any other error propagates at once.  `first` and
`second` are the oracle outcomes of the at most two inner calls; the event
trace is returned alongside the result. -/
def wrapWithAuthRetry {α : Type} (first second : CallResult α) :
    CallResult α × List WrapEvent :=
  match first with
  | .ok v => (.ok v, [.fetchToken, .innerCall])
  | .err e =>
    if is401 e then
      (second, [.fetchToken, .innerCall, .fetchToken, .innerCall])
    else
      (.err e, [.fetchToken, .innerCall])

/-- The wrapped `call` / `generate` methods
(`LmChatAzureOpenAiMsOAuth2.node.ts` lines 513-531): fetch and inject a fresh
token, call the inner method once, and hand back its outcome unchanged — no
catch block, no retry. -/
def wrapInjectOnly {α : Type} (outcome : CallResult α) :
    CallResult α × List WrapEvent :=
  (outcome, [.fetchToken, .innerCall])

/-! ## Helper lemmas -/

lemma bufferTimeChat_pos (rb : Option Int) : 0 < (bufferTimeChat rb).1 := by
  cases rb with
  | none => norm_num [bufferTimeChat]
  | some b =>
    by_cases h : 60 ≤ b ∧ b ≤ 3600
    · simp only [bufferTimeChat, if_pos h]
      omega
    · simp only [bufferTimeChat, if_neg h]
      norm_num

lemma startsWithL_append_self (p m : List Char) : startsWithL p (p ++ m) = true := by
  induction p with
  | nil => rfl
  | cons a as ih => simp [startsWithL, ih]

lemma occCount_le_append (p l m : List Char) : occCount p m ≤ occCount p (l ++ m) := by
  induction l with
  | nil => simp
  | cons c l ih =>
    have h : (c :: l) ++ m = c :: (l ++ m) := rfl
    rw [h, occCount]
    exact le_trans ih (Nat.le_add_left _ _)

lemma occCount_self_append (p m : List Char) (hp : p ≠ []) :
    1 + occCount p m ≤ occCount p (p ++ m) := by
  match p, hp with
  | a :: as, _ =>
    have h : (a :: as) ++ m = a :: (as ++ m) := rfl
    rw [h, occCount, ← h, startsWithL_append_self]
    simpa using occCount_le_append (a :: as) as m

lemma manualRefreshGrant_none (tok : String) (grant : GrantOutcome) :
    manualRefreshGrant tok none grant = (tok, false) := rfl

lemma getCurrentToken_tok_of_truthy (creds : CredentialBundle)
    (tokenExp : Option Int) (now : Int) (probe : ProbeOutcome)
    (grant : GrantOutcome)
    (htok : jsTruthyS creds.oauthTokenData.access_token = true) :
    ∃ s, (getCurrentToken creds tokenExp now probe grant).result =
      TokenResult.tok s := by
  unfold getCurrentToken
  rcases hA : authExpiry tokenExp creds.oauthTokenData with _ | e
  · simp [htok, hA]
  · simp only [htok, hA, if_true]
    by_cases h1 : now ≥ e - (bufferTimeChat creds.refreshBeforeExpirySeconds).1
    · by_cases h2 : now ≥ e
      · cases probe with
        | ok reread =>
          by_cases hc : jsTruthyS reread = true ∧ reread ≠ creds.oauthTokenData.access_token
          · simp [h1, h2, hc]
          · simp [h1, h2, hc]
        | threw => simp [h1, h2]
      · simp [h1, h2]
    · simp [h1]

/-! ## Claim theorems -/

/-- C1: for every credential bundle holding a token whose authoritative
expiry `e` satisfies `e ≤ now` (already expired, hence also past the buffer,
since the effective buffer is positive), `getCurrentToken` attempts the
gateway-probe strategy first, and the direct refresh-token-grant strategy is
attempted exactly when the gateway probe fails (throws); a probe that
completes with an unchanged token is a no-op success and does not fall
through. -/
theorem claim1_expired_gateway_probe_first (creds : CredentialBundle)
    (tokenExp : Option Int) (now e : Int) (probe : ProbeOutcome)
    (grant : GrantOutcome)
    (htok : jsTruthyS creds.oauthTokenData.access_token = true)
    (hexp : authExpiry tokenExp creds.oauthTokenData = some e)
    (hnow : e ≤ now) :
    (getCurrentToken creds tokenExp now probe grant).strategies.head? =
      some Strategy.gatewayProbe ∧
    (Strategy.directGrant ∈ (getCurrentToken creds tokenExp now probe grant).strategies ↔
      probe = ProbeOutcome.threw) := by
  have hb := bufferTimeChat_pos creds.refreshBeforeExpirySeconds
  have h1 : now ≥ e - (bufferTimeChat creds.refreshBeforeExpirySeconds).1 := by omega
  have h2 : now ≥ e := hnow
  unfold getCurrentToken
  simp only [htok, hexp, if_true, h1, h2, if_pos]
  cases probe with
  | ok reread =>
    by_cases hc : jsTruthyS reread = true ∧ reread ≠ creds.oauthTokenData.access_token
    · simp [hc]
    · simp [hc]
  | threw => simp

/-- C1 witness: a concrete expired bundle (exp claim 100, now 200) with a
throwing probe: the probe is attempted first and the direct grant follows. -/
theorem claim1_witness :
    (getCurrentToken ⟨⟨some "A", none, none, none, some "R"⟩, "u", "c", "s", "a", none⟩
        (some 100) 200 ProbeOutcome.threw GrantOutcome.threw).strategies.head? =
      some Strategy.gatewayProbe ∧
    (Strategy.directGrant ∈
        (getCurrentToken ⟨⟨some "A", none, none, none, some "R"⟩, "u", "c", "s", "a", none⟩
          (some 100) 200 ProbeOutcome.threw GrantOutcome.threw).strategies ↔
      ProbeOutcome.threw = ProbeOutcome.threw) :=
  claim1_expired_gateway_probe_first _ (some 100) 200 100 ProbeOutcome.threw
    GrantOutcome.threw (by decide) (by decide) (by decide)

/-- C2: for every credential bundle holding a token whose authoritative
expiry `e` is inside the buffer window (`e - effectiveBuffer ≤ now < e`),
the only strategy `getCurrentToken` attempts is the direct
refresh-token grant: it is attempted first, and no gateway probe is attempted
before it (none is attempted at all). -/
theorem claim2_buffer_direct_grant_first (creds : CredentialBundle)
    (tokenExp : Option Int) (now e : Int) (probe : ProbeOutcome)
    (grant : GrantOutcome)
    (htok : jsTruthyS creds.oauthTokenData.access_token = true)
    (hexp : authExpiry tokenExp creds.oauthTokenData = some e)
    (hbuf : e - (bufferTimeChat creds.refreshBeforeExpirySeconds).1 ≤ now)
    (hlt : now < e) :
    (getCurrentToken creds tokenExp now probe grant).strategies =
      [Strategy.directGrant] := by
  have h1 : now ≥ e - (bufferTimeChat creds.refreshBeforeExpirySeconds).1 := hbuf
  have h2 : ¬ now ≥ e := by omega
  unfold getCurrentToken
  simp only [htok, hexp, if_true, h1, if_pos, if_neg h2]

/-- C2 witness: a concrete bundle expiring in 50 seconds (exp claim
`now + 50`, default buffer 900): the strategy trace is exactly the direct
grant. -/
theorem claim2_witness :
    (getCurrentToken ⟨⟨some "A", none, none, none, some "R"⟩, "u", "c", "s", "a", none⟩
        (some 150) 100 ProbeOutcome.threw (GrantOutcome.ok (some "B"))).strategies =
      [Strategy.directGrant] :=
  claim2_buffer_direct_grant_first _ (some 150) 100 150 ProbeOutcome.threw
    (GrantOutcome.ok (some "B")) (by decide) (by decide) (by decide) (by decide)

/-- C3: for every credential bundle with no access token, `getCurrentToken`
raises the missing-token `NodeOperationError` with no strategy attempted and
no network call issued; and a raised error is the only failure the function
can surface — whenever the result is an error, that error is `missingToken`
and the bundle's access token was not a (truthy) string. -/
theorem claim3_missing_token_only_failure (creds : CredentialBundle)
    (tokenExp : Option Int) (now : Int) (probe : ProbeOutcome)
    (grant : GrantOutcome) :
    (creds.oauthTokenData.access_token = none →
      getCurrentToken creds tokenExp now probe grant =
        ⟨TokenResult.err TokenErr.missingToken, [], []⟩) ∧
    (∀ er, (getCurrentToken creds tokenExp now probe grant).result =
        TokenResult.err er →
      er = TokenErr.missingToken ∧
        jsTruthyS creds.oauthTokenData.access_token = false) := by
  constructor
  · intro h
    unfold getCurrentToken
    simp [h, jsTruthyS]
  · intro er her
    by_cases htok : jsTruthyS creds.oauthTokenData.access_token = true
    · obtain ⟨s, hs⟩ :=
        getCurrentToken_tok_of_truthy creds tokenExp now probe grant htok
      rw [hs] at her
      exact absurd her (by simp)
    · exact ⟨by cases er; rfl, by simpa using htok⟩

/-- C3 witness: a bundle with `access_token` absent raises `missingToken`
with empty strategy and network traces, and an error result implies the
token was missing. -/
theorem claim3_witness :
    getCurrentToken ⟨⟨none, none, none, none, none⟩, "u", "c", "s", "a", none⟩
        (some 100) 200 ProbeOutcome.threw GrantOutcome.threw =
      ⟨TokenResult.err TokenErr.missingToken, [], []⟩ :=
  (claim3_missing_token_only_failure _ (some 100) 200 ProbeOutcome.threw
    GrantOutcome.threw).1 rfl

/-- C4: for every credential bundle holding a token, when the authoritative
expiry cannot be determined (the whole `tokenExp || expires_at || exp` chain
is falsy — in particular when only `expires_in` is present), or when
`now < expiryEpoch - effectiveBuffer`, `getCurrentToken` returns the current
access token unchanged, attempts no strategy, and issues zero network
calls. -/
theorem claim4_fresh_token_unchanged (creds : CredentialBundle)
    (tokenExp : Option Int) (now : Int) (probe : ProbeOutcome)
    (grant : GrantOutcome)
    (htok : jsTruthyS creds.oauthTokenData.access_token = true)
    (h : authExpiry tokenExp creds.oauthTokenData = none ∨
      ∃ e, authExpiry tokenExp creds.oauthTokenData = some e ∧
        now < e - (bufferTimeChat creds.refreshBeforeExpirySeconds).1) :
    getCurrentToken creds tokenExp now probe grant =
      ⟨TokenResult.tok (creds.oauthTokenData.access_token.getD ""), [], []⟩ := by
  unfold getCurrentToken
  rcases h with hA | ⟨e, hA, hlt⟩
  · simp [htok, hA]
  · have h1 : ¬ now ≥ e - (bufferTimeChat creds.refreshBeforeExpirySeconds).1 := by
      omega
    simp [htok, hA, h1]

/-- C4 witness: a bundle with only `expires_in: 3600` (no exp claim, no
stored expiry) returns `"A"` unchanged with no strategy and no network
call. -/
theorem claim4_witness :
    getCurrentToken ⟨⟨some "A", some 3600, none, none, some "R"⟩, "u", "c", "s", "a", none⟩
        none 100 ProbeOutcome.threw GrantOutcome.threw =
      ⟨TokenResult.tok "A", [], []⟩ :=
  claim4_fresh_token_unchanged _ none 100 ProbeOutcome.threw GrantOutcome.threw
    (by decide) (Or.inl (by decide))

/-- C7: whenever the direct-grant strategy is attempted (it appears in the
strategy trace) and the bundle has no refresh token, no POST to the token
endpoint is issued and `getCurrentToken` returns the current (possibly
stale) access token rather than raising an error. -/
theorem claim7_direct_grant_without_refresh_token (creds : CredentialBundle)
    (tokenExp : Option Int) (now : Int) (probe : ProbeOutcome)
    (grant : GrantOutcome)
    (hrt : creds.oauthTokenData.refresh_token = none)
    (hmem : Strategy.directGrant ∈
      (getCurrentToken creds tokenExp now probe grant).strategies) :
    NetCall.tokenEndpointPost ∉
      (getCurrentToken creds tokenExp now probe grant).netCalls ∧
    (getCurrentToken creds tokenExp now probe grant).result =
      TokenResult.tok (creds.oauthTokenData.access_token.getD "") := by
  by_cases htok : jsTruthyS creds.oauthTokenData.access_token = true
  · rcases hA : authExpiry tokenExp creds.oauthTokenData with _ | e
    · have hval : getCurrentToken creds tokenExp now probe grant =
          ⟨TokenResult.tok (creds.oauthTokenData.access_token.getD ""), [], []⟩ := by
        unfold getCurrentToken
        simp [htok, hA]
      rw [hval] at hmem
      exact absurd hmem (by simp)
    · by_cases h1 : now ≥ e - (bufferTimeChat creds.refreshBeforeExpirySeconds).1
      · by_cases h2 : now ≥ e
        · cases probe with
          | ok reread =>
            have hstrat : (getCurrentToken creds tokenExp now
                (ProbeOutcome.ok reread) grant).strategies =
                [Strategy.gatewayProbe] := by
              unfold getCurrentToken
              by_cases hc : jsTruthyS reread = true ∧
                  reread ≠ creds.oauthTokenData.access_token
              · simp [htok, hA, h1, h2, hc]
              · simp [htok, hA, h1, h2, hc]
            rw [hstrat] at hmem
            exact absurd hmem (by simp)
          | threw =>
            have hval : getCurrentToken creds tokenExp now ProbeOutcome.threw grant =
                ⟨TokenResult.tok (creds.oauthTokenData.access_token.getD ""),
                  [Strategy.gatewayProbe, Strategy.directGrant],
                  [NetCall.probeRequest]⟩ := by
              unfold getCurrentToken
              simp [htok, hA, h1, h2, hrt, manualRefreshGrant_none]
            rw [hval]
            exact ⟨by simp, rfl⟩
        · have hval : getCurrentToken creds tokenExp now probe grant =
              ⟨TokenResult.tok (creds.oauthTokenData.access_token.getD ""),
                [Strategy.directGrant], []⟩ := by
            unfold getCurrentToken
            simp [htok, hA, h1, h2, hrt, manualRefreshGrant_none]
          rw [hval]
          exact ⟨by simp, rfl⟩
      · have hval : getCurrentToken creds tokenExp now probe grant =
            ⟨TokenResult.tok (creds.oauthTokenData.access_token.getD ""), [], []⟩ := by
          unfold getCurrentToken
          simp [htok, hA, h1]
        rw [hval] at hmem
        exact absurd hmem (by simp)
  · have hval : getCurrentToken creds tokenExp now probe grant =
        ⟨TokenResult.err TokenErr.missingToken, [], []⟩ := by
      unfold getCurrentToken
      simp [htok]
    rw [hval] at hmem
    exact absurd hmem (by simp)

/-- C7 witness: a bundle inside the buffer window with no refresh token: the
direct grant is attempted, no token-endpoint POST is issued, and the stale
token `"A"` is returned. -/
theorem claim7_witness :
    NetCall.tokenEndpointPost ∉
      (getCurrentToken ⟨⟨some "A", none, none, none, none⟩, "u", "c", "s", "a", none⟩
        (some 150) 100 ProbeOutcome.threw GrantOutcome.threw).netCalls ∧
    (getCurrentToken ⟨⟨some "A", none, none, none, none⟩, "u", "c", "s", "a", none⟩
        (some 150) 100 ProbeOutcome.threw GrantOutcome.threw).result =
      TokenResult.tok "A" :=
  claim7_direct_grant_without_refresh_token _ (some 150) 100 ProbeOutcome.threw
    GrantOutcome.threw rfl (by decide)

/-- C5: the 401-retry wrapper around `invoke` / `stream`.  A first call that
fails the 401 test (true exactly when the top-level `status` or the nested
`response.status` is 401) causes one fresh-token fetch and exactly one more
inner call, whose outcome — success value or second failure — is returned
unchanged; a first failure that is not a 401 propagates at once with no
retry; a first success is returned directly.  The event traces show the
inner method is called twice in the retry case and once otherwise. -/
theorem claim5_wrap_with_auth_retry {α : Type} (v : α) (e : JsError)
    (second : CallResult α) :
    wrapWithAuthRetry (CallResult.ok v) second =
      (CallResult.ok v, [WrapEvent.fetchToken, WrapEvent.innerCall]) ∧
    (is401 e = true →
      wrapWithAuthRetry (CallResult.err e) second =
        (second, [WrapEvent.fetchToken, WrapEvent.innerCall,
          WrapEvent.fetchToken, WrapEvent.innerCall])) ∧
    (is401 e = false →
      wrapWithAuthRetry (CallResult.err e) second =
        (CallResult.err e, [WrapEvent.fetchToken, WrapEvent.innerCall])) ∧
    (is401 e = true ↔
      e.status = some 401 ∨ ∃ r, e.response = some r ∧ r.status = some 401) := by
  refine ⟨rfl, ?_, ?_, ?_⟩
  · intro h
    simp [wrapWithAuthRetry, h]
  · intro h
    simp [wrapWithAuthRetry, h]
  · cases hr : e.response with
    | none => simp [is401, hr]
    | some r => simp [is401, hr]

/-- C5 witness: a first call failing with nested status 401 is retried and
returns the retry's success value 7; a first call failing with top-level
status 500 propagates unchanged without a retry. -/
theorem claim5_witness :
    wrapWithAuthRetry (CallResult.err ⟨none, some ⟨some 401⟩⟩) (CallResult.ok 7) =
      (CallResult.ok 7, [WrapEvent.fetchToken, WrapEvent.innerCall,
        WrapEvent.fetchToken, WrapEvent.innerCall]) ∧
    wrapWithAuthRetry (CallResult.err ⟨some 500, none⟩) (CallResult.ok 7) =
      (CallResult.err ⟨some 500, none⟩,
        [WrapEvent.fetchToken, WrapEvent.innerCall]) :=
  ⟨(claim5_wrap_with_auth_retry 7 ⟨none, some ⟨some 401⟩⟩ (CallResult.ok 7)).2.1
      (by decide),
   (claim5_wrap_with_auth_retry 7 ⟨some 500, none⟩ (CallResult.ok 7)).2.2.1
      (by decide)⟩

/-- C10: the wrappers around `call` / `generate` fetch and inject a fresh
token before the single inner call and return that call's outcome unchanged:
there is no catch block, so every failure — including one passing the 401
test — propagates on the first failure, with exactly one inner call in the
trace, unlike the `invoke` / `stream` wrappers. -/
theorem claim10_call_generate_no_retry {α : Type} (o : CallResult α)
    (e : JsError) :
    wrapInjectOnly o = (o, [WrapEvent.fetchToken, WrapEvent.innerCall]) ∧
    (is401 e = true →
      wrapInjectOnly (CallResult.err e : CallResult α) =
        (CallResult.err e, [WrapEvent.fetchToken, WrapEvent.innerCall])) :=
  ⟨rfl, fun _ => rfl⟩

/-- C10 witness: a 401-style error from the wrapped `call` / `generate`
propagates unchanged after a single inner call. -/
theorem claim10_witness :
    wrapInjectOnly (CallResult.err ⟨some 401, none⟩ : CallResult Nat) =
      (CallResult.err ⟨some 401, none⟩,
        [WrapEvent.fetchToken, WrapEvent.innerCall]) :=
  (claim10_call_generate_no_retry (CallResult.ok 0) ⟨some 401, none⟩).2 (by decide)

/-- C6 counterexample: the claim asserts every expiry check replaces an
out-of-range buffer with 900, but the embeddings node's check
(`part_004` line 50) applies `?? 900` only, so the below-minimum value 30 is
used as the effective buffer unchanged. -/
theorem claim6_counterexample :
    bufferTimeEmbed (some 30) = 30 ∧ (30 : Int) ≠ 900 := by
  constructor
  · rfl
  · decide

/-- C6 (amended): in the chat node's expiry check a configured buffer in
`[60, 3600]` is used unchanged and any other configured value is replaced by
the default 900 with only a logged warning, never a failure; the embeddings
node's expiry check, however, uses any configured value unchanged, with no
range validation. -/
theorem claim6_buffer_validation (b : Int) :
    (60 ≤ b ∧ b ≤ 3600 → bufferTimeChat (some b) = (b, false)) ∧
    (¬(60 ≤ b ∧ b ≤ 3600) → bufferTimeChat (some b) = (900, true)) ∧
    bufferTimeChat none = (900, false) ∧
    bufferTimeEmbed (some b) = b := by
  refine ⟨?_, ?_, rfl, rfl⟩
  · intro h
    simp [bufferTimeChat, h]
  · intro h
    simp [bufferTimeChat, h]

/-- C6 witness: 1800 is accepted unchanged by the chat check, 30 and 5000 are
replaced with 900 with a warning, and the embeddings check keeps 30. -/
theorem claim6_witness :
    bufferTimeChat (some 1800) = (1800, false) ∧
    bufferTimeChat (some 30) = (900, true) ∧
    bufferTimeChat (some 5000) = (900, true) ∧
    bufferTimeEmbed (some 30) = 30 :=
  ⟨(claim6_buffer_validation 1800).1 (by decide),
   (claim6_buffer_validation 30).2.1 (by decide),
   (claim6_buffer_validation 5000).2.1 (by decide),
   (claim6_buffer_validation 30).2.2.2⟩

/-- C9 counterexample: a JWT `exp` claim of 0 is present and different from
the stored `expires_at` 100, yet the `||` chain treats the falsy 0 as absent
and the evaluation uses `expires_at`, not the exp claim. -/
theorem claim9_counterexample :
    authExpiry (some 0) ⟨some "A", none, some 100, none, none⟩ = some 100 ∧
    (some 100 : Option Int) ≠ some 0 := by
  constructor
  · rfl
  · decide

/-- C9 (amended): for every bundle in which the decoded JWT `exp` claim and
the host-stored `expires_at` are both present and different, and the exp
claim is nonzero (truthy), the evaluation uses the exp claim exclusively;
a zero exp claim is treated as absent by the JavaScript `||` chain. -/
theorem claim9_exp_claim_priority (a b : Int) (d : OAuthTokenData)
    (ha : a ≠ 0) (hb : d.expires_at = some b) (hab : a ≠ b) :
    authExpiry (some a) d = some a := by
  simp [authExpiry, expiryTimeChain, jsOrI, jsTruthyI, ha]

/-- C9 witness: exp claim 50 beats a different stored expiry 100. -/
theorem claim9_witness :
    authExpiry (some 50) ⟨some "A", none, some 100, none, none⟩ = some 50 :=
  claim9_exp_claim_priority 50 100 _ (by decide) rfl (by decide)

/-- C8 counterexample: for the configured apiScope
`offline_access api://x/.default`, which already contains `offline_access`,
the scope string of the direct refresh-token-grant POST contains
`offline_access` twice — the POST always prefixes it, without
deduplication. -/
theorem claim8_counterexample :
    includesJS "offline_access api://x/.default" "offline_access" = true ∧
    occCount "offline_access".data
      (directGrantScope "offline_access api://x/.default").data = 2 := by
  constructor
  · decide
  · decide

lemma directGrantScope_data (s : String) :
    (directGrantScope s).data = "offline_access".data ++ (' ' :: s.data) := by
  have h1 : (directGrantScope s).data = "offline_access ".data ++ s.data := rfl
  have h2 : "offline_access ".data = "offline_access".data ++ [' '] := by decide
  rw [h1, h2, List.append_assoc]
  rfl

lemma occCount_oa_prefixed (m : List Char) :
    1 + occCount "offline_access".data m ≤
      occCount "offline_access".data ("offline_access".data ++ m) :=
  occCount_self_append _ _ (by decide)

/-- C8 (amended): the scope strings sent to the identity provider always
contain `offline_access`: the credential's OAuth2 `scope` field keeps the
configured `apiScope` unchanged when it already includes `offline_access`
(deduplicated), and prefixes it otherwise; the scope of the direct
refresh-token-grant POST, however, always prefixes `offline_access `, so when
the configured `apiScope` already contains it the POSTed scope contains it at
least twice (not deduplicated). -/
theorem claim8_offline_access_scope (apiScope : String) :
    0 < occCount "offline_access".data (credentialScopeField apiScope).data ∧
    0 < occCount "offline_access".data (directGrantScope apiScope).data ∧
    (includesJS apiScope "offline_access" = true →
      credentialScopeField apiScope = apiScope ∧
      2 ≤ occCount "offline_access".data (directGrantScope apiScope).data) := by
  have hgrant : 0 < occCount "offline_access".data (directGrantScope apiScope).data := by
    rw [directGrantScope_data]
    have := occCount_oa_prefixed (' ' :: apiScope.data)
    omega
  refine ⟨?_, hgrant, ?_⟩
  · by_cases h : includesJS apiScope "offline_access" = true
    · rw [credentialScopeField, if_pos h]
      have : occCount "offline_access".data apiScope.data ≠ 0 := by
        simpa [includesJS] using h
      omega
    · rw [credentialScopeField, if_neg h]
      have h1 : ("offline_access " ++ apiScope).data =
          "offline_access".data ++ (' ' :: apiScope.data) :=
        directGrantScope_data apiScope
      rw [h1]
      have := occCount_oa_prefixed (' ' :: apiScope.data)
      omega
  · intro h
    refine ⟨by rw [credentialScopeField, if_pos h], ?_⟩
    have hocc : occCount "offline_access".data apiScope.data ≠ 0 := by
      simpa [includesJS] using h
    rw [directGrantScope_data]
    have h1 := occCount_oa_prefixed (' ' :: apiScope.data)
    have h2 : occCount "offline_access".data apiScope.data ≤
        occCount "offline_access".data (' ' :: apiScope.data) := by
      have : (' ' :: apiScope.data) = [' '] ++ apiScope.data := rfl
      rw [this]
      exact occCount_le_append _ _ _
    omega

/-- C8 witness: with apiScope `api://x/.default` both scope strings contain
`offline_access`; with apiScope `offline_access y`, already containing it,
the credential scope field is kept unchanged while the direct-grant POST
scope contains it at least twice. -/
theorem claim8_witness :
    0 < occCount "offline_access".data
      (credentialScopeField "api://x/.default").data ∧
    credentialScopeField "offline_access y" = "offline_access y" ∧
    2 ≤ occCount "offline_access".data
      (directGrantScope "offline_access y").data :=
  ⟨(claim8_offline_access_scope "api://x/.default").1,
   (claim8_offline_access_scope "offline_access y").2.2 (by decide)⟩
